import Mathlib

/-!
Verification of the business rules of the sfs-license-manager repository:
expiry classification, status/payment transition rules, the payment-history
flow, CSV import validation and CSV export, and the license-expiry
notification sweep.  Each definition is a shallow embedding of the
corresponding TypeScript function; store and email-provider effects are
modelled by explicit state passing and oracle parameters.
-/

/-- Milliseconds per day, the constant 1000 * 60 * 60 * 24 used throughout the code. -/
def msPerDay : Int := 86400000

/-- Ceiling division of integers: models the JS expression Math.ceil(a / b) for b > 0. -/
def ceilDiv (a b : Int) : Int := -((-a) / b)

/-- Result of the table expiry classifier getExpiryStatus in LicenseTable.tsx. -/
structure ExpiryStatus where
  status : String
  variant : String
  text : String
deriving DecidableEq, Repr

/-- Branch structure of getExpiryStatus on the computed daysUntilExpiry value. -/
def expiryStatusOfDays (daysUntilExpiry : Int) : ExpiryStatus :=
  if daysUntilExpiry < 0 then ⟨"expired", "destructive", "Expired"⟩
  else if daysUntilExpiry ≤ 7 then ⟨"critical", "destructive", toString daysUntilExpiry ++ " days"⟩
  else if daysUntilExpiry ≤ 30 then ⟨"warning", "default", toString daysUntilExpiry ++ " days"⟩
  else ⟨"active", "secondary", toString daysUntilExpiry ++ " days"⟩

/-- Translated from getExpiryStatus (LicenseTable.tsx, lines 32-46).  Times are
epoch milliseconds; the expiry date string parses to UTC midnight of its day. -/
def getExpiryStatus (expiryMs nowMs : Int) : ExpiryStatus :=
  expiryStatusOfDays (ceilDiv (expiryMs - nowMs) msPerDay)

/-- Rank of a tier in increasing order of remaining life. -/
def expiryRank (st : ExpiryStatus) : Nat :=
  if st.status = "expired" then 0
  else if st.status = "critical" then 1
  else if st.status = "warning" then 2
  else 3

/-! Status/payment transition rules (PaymentStatusBadge.tsx).  The store is
modelled by explicit lists of license and payment rows; fallible store calls
take a Boolean oracle saying whether the call succeeds. -/

/-- License row as used by the status-transition and payment flows. -/
structure DBLicense where
  id : Nat
  status : Option String
  payment_status : Bool
  amount : Rat
deriving DecidableEq, Repr

/-- Row of the payment_history table. -/
structure PaymentRecord where
  license_id : Nat
  amount : Rat
  payment_date : String
  payment_method : Option String
  transaction_id : Option String
  notes : Option String
  created_by : String
deriving DecidableEq, Repr

/-- The two tables touched by the payment flows. -/
structure DB where
  licenses : List DBLicense
  payment_history : List PaymentRecord
deriving DecidableEq, Repr

/-- Models the JS expression user?.id with a fallback to the empty string. -/
def jsIdOrEmpty : Option String → String
  | some uid => uid
  | none => ""

/-- Smart status logic of updateStatus (lines 64-69): the payment_status field
added to the update payload, none when the payload leaves it untouched. -/
def transitionPaymentStatus (newStatus : String) : Option Bool :=
  if newStatus = "Paid" ∨ newStatus = "Confirmed" then some true
  else if newStatus = "Expired" ∨ newStatus = "Cancelled" then some false
  else none

/-- Effect of the licenses update of updateStatus on one stored row. -/
def updateLicenseRow (licenseId : Nat) (newStatus : String) (x : DBLicense) : DBLicense :=
  if x.id == licenseId then
    { x with status := some newStatus,
             payment_status := (transitionPaymentStatus newStatus).getD x.payment_status }
  else x

/-- Outcome of updateStatus: the resulting store, whether the operation reached
the success toast, and whether the soft console warning fired. -/
structure UpdateOutcome where
  db : DB
  success : Bool
  warned : Bool
deriving DecidableEq, Repr

/-- The auto-generated marker written into the payment notes. -/
def autoPaymentNote : String := "Payment recorded automatically when status updated to Paid"

/-- Translated from updateStatus (PaymentStatusBadge.tsx, lines 59-123).
licenseUpdateOk models whether the licenses update succeeds, paymentInsertOk
whether the payment_history insert succeeds. -/
def updateStatus (licenseId : Nat) (currentStatus : Option String) (newStatus : String)
    (actingUser : Option String) (today : String)
    (licenseUpdateOk paymentInsertOk : Bool) (db : DB) : UpdateOutcome :=
  if !licenseUpdateOk then ⟨db, false, false⟩
  else
    let db1 : DB := { db with licenses := db.licenses.map (updateLicenseRow licenseId newStatus) }
    if newStatus = "Paid" ∧ currentStatus ≠ some "Paid" then
      match db1.licenses.find? (fun x => x.id == licenseId) with
      | some license =>
          if paymentInsertOk then
            ⟨{ db1 with payment_history := db1.payment_history ++
                [{ license_id := licenseId, amount := license.amount, payment_date := today,
                   payment_method := none, transaction_id := none,
                   notes := some autoPaymentNote,
                   created_by := jsIdOrEmpty actingUser }] }, true, false⟩
          else ⟨db1, true, true⟩
      | none => ⟨db1, true, false⟩
    else ⟨db1, true, false⟩

/-! Manual payment entry (PaymentHistoryDialog in PaymentStatusBadge.tsx). -/

/-- Form state newPayment of the add-payment dialog; the date is the ISO date
string of the picked calendar day, none while unset. -/
structure NewPaymentForm where
  amount : String
  payment_date : Option String
  payment_method : String
  transaction_id : String
  notes : String
deriving DecidableEq, Repr

/-- Models the JS pattern value or null for an optional text field. -/
def emptyToNone (s : String) : Option String :=
  if s = "" then none else some s

/-- Modelled from the JS builtin parseFloat, restricted to the plain decimal
literals this application feeds it (an optional sign, then digits with an
optional fractional part; trailing text is ignored as parseFloat does).
Returns none exactly when parseFloat yields NaN on such inputs. -/
def jsParseFloat (s : String) : Option Rat :=
  let cs := s.data
  let signed : Int × List Char :=
    match cs with
    | '-' :: t => (-1, t)
    | '+' :: t => (1, t)
    | _ => (1, cs)
  let intDigits := signed.2.takeWhile Char.isDigit
  let rest := signed.2.drop intDigits.length
  let fracDigits :=
    match rest with
    | '.' :: t => t.takeWhile Char.isDigit
    | _ => []
  if intDigits = [] ∧ fracDigits = [] then none
  else
    let iv : Nat := intDigits.foldl (fun a c => a * 10 + (c.toNat - 48)) 0
    let fv : Nat := fracDigits.foldl (fun a c => a * 10 + (c.toNat - 48)) 0
    some ((signed.1 : Rat) * ((iv : Rat) + (fv : Rat) / ((10 : Rat) ^ fracDigits.length)))

/-- Outcome of addPayment: the resulting store and whether the success toast fired. -/
structure AddPaymentOutcome where
  db : DB
  success : Bool
deriving DecidableEq, Repr

/-- Translated from addPayment (PaymentHistoryDialog, lines 256-301): guard on
user, amount and date; insert the payment row; then unconditionally update the
parent license to payment_status true and status Paid.  insertOk models whether
the payment_history insert succeeds; the follow-up license update result is not
checked by the code. -/
def addPayment (licenseId : Nat) (user : Option String) (np : NewPaymentForm)
    (insertOk : Bool) (db : DB) : AddPaymentOutcome :=
  match user, np.payment_date with
  | some uid, some pdate =>
    if np.amount = "" then ⟨db, false⟩
    else if insertOk then
      let db1 : DB :=
        { db with payment_history := db.payment_history ++
            [{ license_id := licenseId, amount := (jsParseFloat np.amount).getD 0,
               payment_date := pdate,
               payment_method := emptyToNone np.payment_method,
               transaction_id := emptyToNone np.transaction_id,
               notes := emptyToNone np.notes,
               created_by := uid }] }
      ⟨{ db1 with licenses := db1.licenses.map (fun x =>
          if x.id == licenseId then { x with payment_status := true, status := some "Paid" } else x) },
        true⟩
    else ⟨db, false⟩
  | _, _ => ⟨db, false⟩

/-! Notification sweep (the check-license-expiry edge function).  The license
query is modelled by an Except carrying the full licenses table on success;
the handler applies the documented query conditions itself.  Email dispatch is
an oracle from license id to either a provider id or an error message.  Days
are counted from the UTC epoch; a DATE column value is its day number. -/

/-- License row as read by the sweep. -/
structure SweepLicense where
  id : Nat
  product_name : String
  vendor_name : String
  expiry_day : Int
  notification_email : Option String
  payment_status : Bool
deriving DecidableEq, Repr

/-- One entry of the notifications array accumulated by the sweep; info holds
the provider email id for a sent entry and the error message for a failed one. -/
structure NotificationDetail where
  license_id : Nat
  email : Option String
  days_until_expiry : Int
  urgency : String
  status : String
  info : String
deriving DecidableEq, Repr

/-- The query conditions of the sweep: expiry_date between the date part of now
and the date part of now plus thirty days, and notification_email not null. -/
def sweepQueryPred (nowMs : Int) (l : SweepLicense) : Bool :=
  decide (nowMs / msPerDay ≤ l.expiry_day) &&
  decide (l.expiry_day ≤ (nowMs + 30 * msPerDay) / msPerDay) &&
  l.notification_email.isSome

/-- daysUntilExpiry as computed in the sweep loop: Math.ceil of the millisecond
gap between the UTC midnight of the expiry date and now, over one day. -/
def sweepDaysUntilExpiry (nowMs : Int) (l : SweepLicense) : Int :=
  ceilDiv (l.expiry_day * msPerDay - nowMs) msPerDay

/-- The urgency ladder of the sweep loop, most urgent first; none means
shouldNotify stays false. -/
def urgencyOf (d : Int) : Option String :=
  if d ≤ 3 then some "URGENT"
  else if d ≤ 7 then some "HIGH"
  else if d ≤ 15 then some "MEDIUM"
  else if d ≤ 30 then some "LOW"
  else none

/-- One iteration of the sweep loop for one license: the detail entries pushed
onto notifications and the ids for which a send was attempted. -/
def processLicense (nowMs : Int) (send : Nat → Except String String)
    (l : SweepLicense) : List NotificationDetail × List Nat :=
  let d := sweepDaysUntilExpiry nowMs l
  match urgencyOf d with
  | none => ([], [])
  | some u =>
    match l.notification_email with
    | none => ([], [])
    | some email =>
      if email = "" then ([], [])
      else
        match send l.id with
        | .ok emailId => ([⟨l.id, some email, d, u, "sent", emailId⟩], [l.id])
        | .error msg => ([⟨l.id, some email, d, u, "failed", msg⟩], [l.id])

/-- Body of the JSON response of the sweep. -/
inductive SweepBody where
  | success (checked sent failed : Nat) (details : List NotificationDetail)
  | failure (error : String)
deriving DecidableEq, Repr

/-- HTTP response of the sweep endpoint. -/
structure HttpResponse where
  status : Nat
  body : SweepBody
deriving DecidableEq, Repr

/-- Translated from the serve handler of check-license-expiry (lines 69-200).
Returns the response together with the list of license ids for which an email
send was attempted. -/
def checkLicenseExpiry (queryResult : Except String (List SweepLicense)) (nowMs : Int)
    (send : Nat → Except String String) : HttpResponse × List Nat :=
  match queryResult with
  | .error e => (⟨500, .failure e⟩, [])
  | .ok rows =>
    let licenses := rows.filter (sweepQueryPred nowMs)
    let acc := licenses.foldl
      (fun acc l =>
        let r := processLicense nowMs send l
        (acc.1 ++ r.1, acc.2 ++ r.2))
      ([], [])
    (⟨200, .success licenses.length
        (acc.1.filter (fun n => n.status == "sent")).length
        (acc.1.filter (fun n => n.status == "failed")).length
        acc.1⟩,
      acc.2)

/-- The notifications array of a successful sweep, one independent contribution
per selected license. -/
def sweepDetails (nowMs : Int) (send : Nat → Except String String)
    (rows : List SweepLicense) : List NotificationDetail :=
  (rows.filter (sweepQueryPred nowMs)).flatMap (fun l => (processLicense nowMs send l).1)

/-! CSV import (ImportLicenseDialog).  The JS string primitives split, trim and
the leading/trailing quote strip are modelled on character lists; the text is
split on single-character separators exactly as the code does. -/

/-- Models the JS split of a character list on one separator character. -/
def splitCharAux (sep : Char) : List Char → List Char → List (List Char)
  | [], acc => [acc.reverse]
  | c :: rest, acc =>
      if c = sep then acc.reverse :: splitCharAux sep rest []
      else splitCharAux sep rest (c :: acc)

/-- Models the JS expression text.split(sep) for a one-character separator. -/
def jsSplitChar (sep : Char) (s : String) : List String :=
  (splitCharAux sep s.data []).map (fun cs => ⟨cs⟩)

/-- Models the JS expression text.trim(). -/
def jsTrim (s : String) : String :=
  ⟨(((s.data.dropWhile Char.isWhitespace).reverse).dropWhile Char.isWhitespace).reverse⟩

/-- Models the quote strip v.replace of one leading and one trailing double
quote, each removed independently when present. -/
def stripQuotes (s : String) : String :=
  let cs1 : List Char :=
    match s.data with
    | '"' :: t => t
    | other => other
  match cs1.reverse with
  | '"' :: t => ⟨t.reverse⟩
  | _ => ⟨cs1⟩

/-- Numeric value of a digit list, most significant first. -/
def digitsToNat (cs : List Char) : Nat :=
  cs.foldl (fun a c => a * 10 + (c.toNat - 48)) 0

/-- Modelled from the JS builtin Date.parse restricted to the ISO calendar
dates this application feeds it: accepts year-month-day with a four-digit year
and plausible month and day, and rejects everything else. -/
def jsDateParseValid (s : String) : Bool :=
  match jsSplitChar '-' s with
  | [y, m, d] =>
      decide (y.data.length = 4) && y.data.all Char.isDigit &&
      !m.data.isEmpty && m.data.all Char.isDigit &&
      decide (1 ≤ digitsToNat m.data) && decide (digitsToNat m.data ≤ 12) &&
      !d.data.isEmpty && d.data.all Char.isDigit &&
      decide (1 ≤ digitsToNat d.data) && decide (digitsToNat d.data ≤ 31)
  | _ => false

/-- One parsed CSV data row; a column absent from the header behaves like the
empty string, as the undefined field does in every use the code makes of it. -/
structure CSVLicenseRow where
  product_name : String
  vendor_name : String
  category : String
  amount : String
  billing_cycle : String
  status : String
  start_date : String
  expiry_date : String
  last_renewal_date : String
  login_link : String
  password : String
  notes : String
  notification_email : String
  notification_phone : String
deriving DecidableEq, Repr

/-- Value of the column named name: the code assigns row[header] = values[i]
or the empty string, later assignments overwriting earlier ones. -/
def lookupCol (headers values : List String) (name : String) : String :=
  match (headers.enum.filter (fun p => p.snd == name)).getLast? with
  | some p => (values.get? p.fst).getD ""
  | none => ""

/-- Assembles the typed row object from header names and row values. -/
def mkCSVRow (headers values : List String) : CSVLicenseRow :=
  { product_name := lookupCol headers values "product_name",
    vendor_name := lookupCol headers values "vendor_name",
    category := lookupCol headers values "category",
    amount := lookupCol headers values "amount",
    billing_cycle := lookupCol headers values "billing_cycle",
    status := lookupCol headers values "status",
    start_date := lookupCol headers values "start_date",
    expiry_date := lookupCol headers values "expiry_date",
    last_renewal_date := lookupCol headers values "last_renewal_date",
    login_link := lookupCol headers values "login_link",
    password := lookupCol headers values "password",
    notes := lookupCol headers values "notes",
    notification_email := lookupCol headers values "notification_email",
    notification_phone := lookupCol headers values "notification_phone" }

/-- Translated from parseCSV (ImportLicenseDialog): trim the text, split into
lines, read the header from the first line, and map every remaining line to a
row object through per-field trim and quote strip. -/
def parseCSV (text : String) : List CSVLicenseRow :=
  let lines := jsSplitChar '\n' (jsTrim text)
  let headers := (jsSplitChar ',' (lines.headD "")).map jsTrim
  (lines.drop 1).map (fun line =>
    mkCSVRow headers ((jsSplitChar ',' line).map (fun v => stripQuotes (jsTrim v))))

/-- Display prefix of every validation error for the data row at 0-based index. -/
def rowErr (index : Nat) (msg : String) : String :=
  "Row " ++ toString (index + 2) ++ ": " ++ msg

/-- One conditional error of validateRow. -/
def condErr (b : Bool) (index : Nat) (msg : String) : List String :=
  if b then [rowErr index msg] else []

/-- Translated from validateRow (ImportLicenseDialog, lines 340-364). -/
def validateRow (row : CSVLicenseRow) (index : Nat) : List String :=
  condErr (row.product_name == "") index "Product name is required" ++
  condErr (row.vendor_name == "") index "Vendor name is required" ++
  condErr (row.category == "") index "Category is required" ++
  condErr (row.amount == "" || (jsParseFloat row.amount).isNone) index "Valid amount is required" ++
  condErr (row.billing_cycle == "") index "Billing cycle is required" ++
  condErr (row.status == "") index "Status is required" ++
  condErr (row.start_date == "") index "Start date is required" ++
  condErr (row.expiry_date == "") index "Expiry date is required" ++
  condErr (row.start_date != "" && !jsDateParseValid row.start_date) index
    "Invalid start date format" ++
  condErr (row.expiry_date != "" && !jsDateParseValid row.expiry_date) index
    "Invalid expiry date format" ++
  condErr (row.last_renewal_date != "" && !jsDateParseValid row.last_renewal_date) index
    "Invalid last renewal date format"

/-- Row of the categories reference table. -/
structure CategoryRow where
  id : Nat
  name : String
deriving DecidableEq, Repr

/-- Row of the locations reference table. -/
structure LocationRow where
  id : Nat
  name : String
deriving DecidableEq, Repr

/-- Models the JS String.prototype.toLowerCase restricted to ASCII letters. -/
def jsToLower (s : String) : String :=
  ⟨s.data.map (fun c =>
    if 65 ≤ c.toNat ∧ c.toNat ≤ 90 then Char.ofNat (c.toNat + 32) else c)⟩

/-- One element of the licensesToInsert payload built by handleImport. -/
structure CandidateLicense where
  product_name : String
  vendor_name : String
  category : String
  category_id : Option Nat
  location_id : Option Nat
  amount : Rat
  billing_cycle : String
  status : String
  start_date : String
  expiry_date : String
  last_renewal_date : Option String
  login_link : Option String
  password : Option String
  notes : Option String
  notification_email : Option String
  notification_phone : Option String
  created_by : String
  user_id : String
deriving DecidableEq, Repr

/-- Mapping of one validated row to its insert payload (handleImport): the
category resolved by case-insensitive name match, the location taken as the
first row of the reference table. -/
def toCandidate (user : String) (categories : List CategoryRow)
    (locations : List LocationRow) (row : CSVLicenseRow) : CandidateLicense :=
  let categoryMatch := categories.find? (fun c => jsToLower c.name == jsToLower row.category)
  { product_name := row.product_name,
    vendor_name := row.vendor_name,
    category := row.category,
    category_id := categoryMatch.map (fun c => c.id),
    location_id := (locations.head?).map (fun loc => loc.id),
    amount := (jsParseFloat row.amount).getD 0,
    billing_cycle := row.billing_cycle,
    status := row.status,
    start_date := row.start_date,
    expiry_date := row.expiry_date,
    last_renewal_date := emptyToNone row.last_renewal_date,
    login_link := emptyToNone row.login_link,
    password := emptyToNone row.password,
    notes := emptyToNone row.notes,
    notification_email := emptyToNone row.notification_email,
    notification_phone := emptyToNone row.notification_phone,
    created_by := user,
    user_id := user }

/-- Outcome of the CSV import: the inserted rows, the collected validation
errors, and whether the success toast fired. -/
structure CSVImportOutcome where
  inserted : List CandidateLicense
  errors : List String
  success : Bool
deriving DecidableEq, Repr

/-- Translated from handleImport (ImportLicenseDialog): parse, validate every
row collecting all errors, stop with no insert when any error exists, otherwise
insert the whole mapped batch at once.  insertOk models the batch insert of
the store succeeding. -/
def handleImportCSV (text user : String) (categories : List CategoryRow)
    (locations : List LocationRow) (insertOk : Bool) : CSVImportOutcome :=
  let rows := parseCSV text
  let allErrors := rows.enum.flatMap (fun p => validateRow p.snd p.fst)
  if allErrors ≠ [] then ⟨[], allErrors, false⟩
  else if insertOk then ⟨rows.map (toCandidate user categories locations), [], true⟩
  else ⟨[], [], false⟩

/-- A two-line CSV batch whose single data row has an empty amount. -/
def csvBadText : String :=
  "product_name,vendor_name,category,amount,billing_cycle,status,start_date,expiry_date\nWidget,Acme,Software,,Monthly,Active,2024-01-01,2024-12-31"

/-! CSV export (exportToCSV in LicenseTable.tsx).  The numeric amount appears
in the file through JS string interpolation; its rendered text is carried as a
string field so that the row layout is exact. -/

/-- License data as rendered by the export, with the location name resolved. -/
structure ExportLicense where
  product_name : String
  vendor_name : String
  category : String
  location_name : Option String
  amount : String
  billing_cycle : String
  start_date : String
  expiry_date : String
  last_renewal_date : Option String
  status : Option String
  payment_status : Bool
  notes : Option String
deriving DecidableEq, Repr

/-- The headers array of exportToCSV (lines 77-90). -/
def exportHeaders : List String :=
  ["Product Name", "Vendor", "Category", "Branch Name", "Amount", "Billing Cycle",
   "Start Date", "Expiry Date", "Last Renewal Date", "Status", "Payment Status", "Notes"]

/-- The csvData row of one license (lines 92-105). -/
def exportFields (l : ExportLicense) : List String :=
  [l.product_name, l.vendor_name, l.category, l.location_name.getD "", l.amount,
   l.billing_cycle, l.start_date, l.expiry_date, l.last_renewal_date.getD "",
   l.status.getD "", if l.payment_status then "Paid" else "Unpaid", l.notes.getD ""]

/-- Row serialisation of exportToCSV: every field wrapped in double quotes with
no escaping, joined by commas. -/
def quoteJoin (row : List String) : String :=
  String.intercalate "," (row.map (fun f => "\"" ++ f ++ "\""))

/-- Translated from exportToCSV (lines 107-109): header row and data rows,
each quote-wrapped and comma-joined, joined by newlines. -/
def exportToCSV (licenses : List ExportLicense) : String :=
  String.intercalate "\n" ((exportHeaders :: licenses.map exportFields).map quoteJoin)

/-- Translated from the download attribute (line 115). -/
def exportFilename (isoDate : String) : String :=
  "licenses_" ++ isoDate ++ ".csv"

/-- Stated from the claim: the 12-column header line, every name double-quoted. -/
def specHeaderLine : String :=
  "\"Product Name\",\"Vendor\",\"Category\",\"Branch Name\",\"Amount\",\"Billing Cycle\",\"Start Date\",\"Expiry Date\",\"Last Renewal Date\",\"Status\",\"Payment Status\",\"Notes\""

/-- Stated from the claim: one data line, each of the twelve fields wrapped in
double quotes with the raw field text in between unescaped, the Payment Status
field the literal Paid or Unpaid according to the boolean. -/
def specLicenseLine (l : ExportLicense) : String :=
  String.intercalate ","
    ["\"" ++ l.product_name ++ "\"",
     "\"" ++ l.vendor_name ++ "\"",
     "\"" ++ l.category ++ "\"",
     "\"" ++ l.location_name.getD "" ++ "\"",
     "\"" ++ l.amount ++ "\"",
     "\"" ++ l.billing_cycle ++ "\"",
     "\"" ++ l.start_date ++ "\"",
     "\"" ++ l.expiry_date ++ "\"",
     "\"" ++ l.last_renewal_date.getD "" ++ "\"",
     "\"" ++ l.status.getD "" ++ "\"",
     if l.payment_status then "\"Paid\"" else "\"Unpaid\"",
     "\"" ++ l.notes.getD "" ++ "\""]

/-! Theorems: the claims C1 to C10 with their supporting lemmas and witnesses. -/

lemma ceilDiv_mono {a b c : Int} (hc : 0 < c) (h : a ≤ b) : ceilDiv a c ≤ ceilDiv b c := by
  unfold ceilDiv
  have := Int.ediv_le_ediv hc (neg_le_neg h)
  omega

lemma expiryStatusOfDays_status (d : Int) :
    (expiryStatusOfDays d).status =
      if d < 0 then "expired" else if d ≤ 7 then "critical"
      else if d ≤ 30 then "warning" else "active" := by
  unfold expiryStatusOfDays
  split_ifs <;> rfl

lemma expiryRank_expiryStatusOfDays (d : Int) :
    expiryRank (expiryStatusOfDays d) =
      if d < 0 then 0 else if d ≤ 7 then 1 else if d ≤ 30 then 2 else 3 := by
  unfold expiryRank
  rw [expiryStatusOfDays_status]
  split_ifs <;> simp_all

lemma expiryStatusOfDays_status_cases (d : Int) :
    ((expiryStatusOfDays d).status = "expired" ↔ d < 0) ∧
    ((expiryStatusOfDays d).status = "critical" ↔ 0 ≤ d ∧ d ≤ 7) ∧
    ((expiryStatusOfDays d).status = "warning" ↔ 8 ≤ d ∧ d ≤ 30) ∧
    ((expiryStatusOfDays d).status = "active" ↔ 31 ≤ d) := by
  rw [expiryStatusOfDays_status]
  split_ifs <;> simp_all <;> omega

lemma getExpiryStatus_status_cases (expiryMs nowMs : Int) :
    ((getExpiryStatus expiryMs nowMs).status = "expired" ↔
        ceilDiv (expiryMs - nowMs) msPerDay < 0) ∧
    ((getExpiryStatus expiryMs nowMs).status = "critical" ↔
        0 ≤ ceilDiv (expiryMs - nowMs) msPerDay ∧ ceilDiv (expiryMs - nowMs) msPerDay ≤ 7) ∧
    ((getExpiryStatus expiryMs nowMs).status = "warning" ↔
        8 ≤ ceilDiv (expiryMs - nowMs) msPerDay ∧ ceilDiv (expiryMs - nowMs) msPerDay ≤ 30) ∧
    ((getExpiryStatus expiryMs nowMs).status = "active" ↔
        31 ≤ ceilDiv (expiryMs - nowMs) msPerDay) := by
  unfold getExpiryStatus
  exact expiryStatusOfDays_status_cases _

lemma expiryRank_expiryStatusOfDays_mono {d1 d2 : Int} (hd : d1 ≤ d2) :
    expiryRank (expiryStatusOfDays d1) ≤ expiryRank (expiryStatusOfDays d2) := by
  rw [expiryRank_expiryStatusOfDays, expiryRank_expiryStatusOfDays]
  split_ifs <;> omega

lemma getExpiryStatus_rank_mono (e1 e2 nowMs : Int) (h : e1 ≤ e2) :
    expiryRank (getExpiryStatus e1 nowMs) ≤ expiryRank (getExpiryStatus e2 nowMs) := by
  have hd : ceilDiv (e1 - nowMs) msPerDay ≤ ceilDiv (e2 - nowMs) msPerDay :=
    ceilDiv_mono (by norm_num [msPerDay]) (by omega)
  unfold getExpiryStatus
  exact expiryRank_expiryStatusOfDays_mono hd

/-- C7: the table expiry classifier computes daysUntilExpiry as the ceiling of the
millisecond difference over one day, yields tier expired exactly when it is negative,
critical on 0..7, warning on 8..30, active from 31 up, and the tier is monotone in
days-until-expiry under the fixed boundary set 7 and 30. -/
theorem getExpiryStatus_tiers_and_monotone (expiryMs expiryMs2 nowMs : Int) :
    ((getExpiryStatus expiryMs nowMs).status = "expired" ↔
        ceilDiv (expiryMs - nowMs) msPerDay < 0) ∧
    ((getExpiryStatus expiryMs nowMs).status = "critical" ↔
        0 ≤ ceilDiv (expiryMs - nowMs) msPerDay ∧ ceilDiv (expiryMs - nowMs) msPerDay ≤ 7) ∧
    ((getExpiryStatus expiryMs nowMs).status = "warning" ↔
        8 ≤ ceilDiv (expiryMs - nowMs) msPerDay ∧ ceilDiv (expiryMs - nowMs) msPerDay ≤ 30) ∧
    ((getExpiryStatus expiryMs nowMs).status = "active" ↔
        31 ≤ ceilDiv (expiryMs - nowMs) msPerDay) ∧
    (expiryMs ≤ expiryMs2 →
        expiryRank (getExpiryStatus expiryMs nowMs) ≤ expiryRank (getExpiryStatus expiryMs2 nowMs)) := by
  obtain ⟨h1, h2, h3, h4⟩ := getExpiryStatus_status_cases expiryMs nowMs
  exact ⟨h1, h2, h3, h4, fun h => getExpiryStatus_rank_mono expiryMs expiryMs2 nowMs h⟩

/-- Witness for C7 at concrete inputs: five days out is critical, and moving the
expiry later can only move the rank up. -/
theorem getExpiryStatus_tiers_and_monotone_witness :
    (getExpiryStatus (5 * 86400000) 0).status = "critical" ∧
    expiryRank (getExpiryStatus (5 * 86400000) 0) ≤ expiryRank (getExpiryStatus (40 * 86400000) 0) := by
  obtain ⟨-, h2, -, -, h5⟩ := getExpiryStatus_tiers_and_monotone (5 * 86400000) (40 * 86400000) 0
  exact ⟨h2.mpr (by decide), h5 (by norm_num)⟩

lemma find?_map_of_pred_eq {α : Type} (p : α → Bool) (g : α → α)
    (hg : ∀ x, p (g x) = p x) :
    ∀ ls : List α, (ls.map g).find? p = (ls.find? p).map g := by
  intro ls
  rw [List.find?_map]
  have : p ∘ g = p := funext hg
  rw [this]

lemma updateLicenseRow_pred (licenseId : Nat) (newStatus : String) (x : DBLicense) :
    ((updateLicenseRow licenseId newStatus x).id == licenseId) = (x.id == licenseId) := by
  unfold updateLicenseRow
  cases h : (x.id == licenseId) <;> simp [h]

lemma find?_updateStatus_licenses (licenseId : Nat) (newStatus : String)
    (db : DB) (l : DBLicense)
    (hfind : db.licenses.find? (fun x => x.id == licenseId) = some l) :
    (db.licenses.map (updateLicenseRow licenseId newStatus)).find? (fun x => x.id == licenseId) =
      some (updateLicenseRow licenseId newStatus l) := by
  rw [find?_map_of_pred_eq _ _ (updateLicenseRow_pred licenseId newStatus), hfind]
  rfl

lemma updateStatus_true_eq (licenseId : Nat) (cs : Option String) (ns : String)
    (au : Option String) (today : String) (pOk : Bool) (db : DB) :
    updateStatus licenseId cs ns au today true pOk db =
      if ns = "Paid" ∧ cs ≠ some "Paid" then
        match (db.licenses.map (updateLicenseRow licenseId ns)).find?
            (fun x => x.id == licenseId) with
        | some license =>
            if pOk then
              ⟨⟨db.licenses.map (updateLicenseRow licenseId ns),
                db.payment_history ++
                  [⟨licenseId, license.amount, today, none, none,
                    some autoPaymentNote, jsIdOrEmpty au⟩]⟩, true, false⟩
            else ⟨⟨db.licenses.map (updateLicenseRow licenseId ns), db.payment_history⟩, true, true⟩
        | none => ⟨⟨db.licenses.map (updateLicenseRow licenseId ns), db.payment_history⟩, true, false⟩
      else ⟨⟨db.licenses.map (updateLicenseRow licenseId ns), db.payment_history⟩, true, false⟩ :=
  rfl

lemma updateLicenseRow_amount (licenseId : Nat) (ns : String) (l : DBLicense) :
    (updateLicenseRow licenseId ns l).amount = l.amount := by
  unfold updateLicenseRow
  cases h : (l.id == licenseId) <;> simp [h]

/-- C1: transitioning a license whose current status is not Paid to status Paid
appends exactly one payment_history row carrying the current amount of the
license, the current date, the auto-generated marker note and the acting user;
and when that insert fails, the status update itself still succeeds with the
licenses table updated, the failure surfacing only as the soft warning. -/
theorem updateStatus_paid_creates_one_payment
    (licenseId : Nat) (currentStatus : Option String) (uid : String)
    (today : String) (db : DB) (l : DBLicense)
    (hfind : db.licenses.find? (fun x => x.id == licenseId) = some l)
    (hcur : currentStatus ≠ some "Paid") :
    ((updateStatus licenseId currentStatus "Paid" (some uid) today true true db).db.payment_history =
        db.payment_history ++
          [{ license_id := licenseId, amount := l.amount, payment_date := today,
             payment_method := none, transaction_id := none,
             notes := some autoPaymentNote, created_by := uid }]) ∧
    ((updateStatus licenseId currentStatus "Paid" (some uid) today true false db).success = true) ∧
    ((updateStatus licenseId currentStatus "Paid" (some uid) today true false db).db.payment_history =
        db.payment_history) ∧
    ((updateStatus licenseId currentStatus "Paid" (some uid) today true false db).db.licenses =
        db.licenses.map (updateLicenseRow licenseId "Paid")) ∧
    ((updateStatus licenseId currentStatus "Paid" (some uid) today true false db).warned = true) := by
  have hf := find?_updateStatus_licenses licenseId "Paid" db l hfind
  rw [updateStatus_true_eq, updateStatus_true_eq, if_pos ⟨rfl, hcur⟩, if_pos ⟨rfl, hcur⟩, hf]
  refine ⟨?_, rfl, rfl, rfl, rfl⟩
  show db.payment_history ++ _ = db.payment_history ++ _
  rw [updateLicenseRow_amount]
  rfl

/-- Witness for C1 on a one-license store. -/
theorem updateStatus_paid_creates_one_payment_witness :
    (updateStatus 1 (some "Pending") "Paid" (some "u1") "2025-01-02" true true
        ⟨[⟨1, some "Pending", false, 99⟩], []⟩).db.payment_history =
      [{ license_id := 1, amount := 99, payment_date := "2025-01-02",
         payment_method := none, transaction_id := none,
         notes := some autoPaymentNote, created_by := "u1" }] := by
  have h := updateStatus_paid_creates_one_payment 1 (some "Pending") "u1" "2025-01-02"
    ⟨[⟨1, some "Pending", false, 99⟩], []⟩ ⟨1, some "Pending", false, 99⟩ (by decide) (by decide)
  rw [h.1]
  rfl

/-- C2: after a status-transition update the stored license has status equal to
the requested status and payment_status true for Paid or Confirmed, false for
Expired or Cancelled, and otherwise its previous value, for every current
status, every requested status, and either outcome of the payment insert. -/
theorem updateStatus_payment_status_flag
    (licenseId : Nat) (currentStatus : Option String) (newStatus : String)
    (actingUser : Option String) (today : String) (paymentInsertOk : Bool)
    (db : DB) (l : DBLicense)
    (hfind : db.licenses.find? (fun x => x.id == licenseId) = some l) :
    (updateStatus licenseId currentStatus newStatus actingUser today true paymentInsertOk
        db).db.licenses.find? (fun x => x.id == licenseId) =
      some { l with status := some newStatus,
                    payment_status :=
                      if newStatus = "Paid" ∨ newStatus = "Confirmed" then true
                      else if newStatus = "Expired" ∨ newStatus = "Cancelled" then false
                      else l.payment_status } := by
  have hf := find?_updateStatus_licenses licenseId newStatus db l hfind
  have hl : (l.id == licenseId) = true := by
    have := List.find?_some hfind
    simpa using this
  have hrow : updateLicenseRow licenseId newStatus l =
      { l with status := some newStatus,
               payment_status :=
                 if newStatus = "Paid" ∨ newStatus = "Confirmed" then true
                 else if newStatus = "Expired" ∨ newStatus = "Cancelled" then false
                 else l.payment_status } := by
    unfold updateLicenseRow transitionPaymentStatus
    rw [if_pos hl]
    split_ifs <;> rfl
  have hlic : (updateStatus licenseId currentStatus newStatus actingUser today true paymentInsertOk
      db).db.licenses = db.licenses.map (updateLicenseRow licenseId newStatus) := by
    rw [updateStatus_true_eq]
    split_ifs with h hp
    · rw [hf]
    · rw [hf]
    · rfl
  rw [hlic, hf, hrow]

/-- Witness for C2: transitioning a Pending license to Cancelled clears payment_status. -/
theorem updateStatus_payment_status_flag_witness :
    (updateStatus 1 (some "Pending") "Cancelled" (some "u1") "2025-01-02" true true
        ⟨[⟨1, some "Pending", true, 50⟩], []⟩).db.licenses.find? (fun x => x.id == 1) =
      some ⟨1, some "Cancelled", false, 50⟩ := by
  have h := updateStatus_payment_status_flag 1 (some "Pending") "Cancelled" (some "u1")
    "2025-01-02" true ⟨[⟨1, some "Pending", true, 50⟩], []⟩ ⟨1, some "Pending", true, 50⟩ (by decide)
  rw [h]
  rfl

/-- C8: requesting a transition to the status the license already shows never
touches the payment_history table, whatever the store oracles do. -/
theorem updateStatus_same_status_no_payment
    (licenseId : Nat) (newStatus : String) (actingUser : Option String) (today : String)
    (licenseUpdateOk paymentInsertOk : Bool) (db : DB) :
    (updateStatus licenseId (some newStatus) newStatus actingUser today
        licenseUpdateOk paymentInsertOk db).db.payment_history = db.payment_history := by
  cases licenseUpdateOk
  · rfl
  · have hnc : ¬(newStatus = "Paid" ∧ some newStatus ≠ some "Paid") := by
      rintro ⟨h1, h2⟩
      exact h2 (by rw [h1])
    rw [updateStatus_true_eq, if_neg hnc]

lemma paidRow_pred (licenseId : Nat) (x : DBLicense) :
    ((if x.id == licenseId then
        { x with payment_status := true, status := some "Paid" } else x).id == licenseId) =
      (x.id == licenseId) := by
  cases h : (x.id == licenseId) <;> simp [h]

lemma addPayment_some_eq (licenseId : Nat) (uid pdate amountField method txid notesField : String)
    (insertOk : Bool) (db : DB) :
    addPayment licenseId (some uid) ⟨amountField, some pdate, method, txid, notesField⟩ insertOk db =
      if amountField = "" then ⟨db, false⟩
      else if insertOk then
        ⟨⟨db.licenses.map (fun x =>
            if x.id == licenseId then { x with payment_status := true, status := some "Paid" } else x),
          db.payment_history ++
            [{ license_id := licenseId, amount := (jsParseFloat amountField).getD 0,
               payment_date := pdate,
               payment_method := emptyToNone method,
               transaction_id := emptyToNone txid,
               notes := emptyToNone notesField,
               created_by := uid }]⟩, true⟩
      else ⟨db, false⟩ :=
  rfl

/-- C9: a successful manual payment through the payment-history flow leaves the
parent license with payment_status true and status Paid, whatever status and
payment_status it had before, and also appends the entered payment row. -/
theorem addPayment_forces_paid
    (licenseId : Nat) (uid pdate : String) (np : NewPaymentForm)
    (db : DB) (l : DBLicense)
    (hamount : np.amount ≠ "")
    (hdate : np.payment_date = some pdate)
    (hfind : db.licenses.find? (fun x => x.id == licenseId) = some l) :
    ((addPayment licenseId (some uid) np true db).db.licenses.find?
        (fun x => x.id == licenseId) =
      some { l with payment_status := true, status := some "Paid" }) ∧
    ((addPayment licenseId (some uid) np true db).success = true) ∧
    ((addPayment licenseId (some uid) np true db).db.payment_history =
      db.payment_history ++
        [{ license_id := licenseId, amount := (jsParseFloat np.amount).getD 0,
           payment_date := pdate,
           payment_method := emptyToNone np.payment_method,
           transaction_id := emptyToNone np.transaction_id,
           notes := emptyToNone np.notes,
           created_by := uid }]) := by
  have hl : (l.id == licenseId) = true := by
    have := List.find?_some hfind
    simpa using this
  have hmap := find?_map_of_pred_eq (fun x => x.id == licenseId)
    (fun x => if x.id == licenseId then
        { x with payment_status := true, status := some "Paid" } else x)
    (paidRow_pred licenseId) db.licenses
  obtain ⟨a, pdt, m, t, nts⟩ := np
  replace hamount : a ≠ "" := hamount
  replace hdate : pdt = some pdate := hdate
  subst hdate
  rw [addPayment_some_eq, if_neg hamount, if_pos rfl]
  refine ⟨?_, rfl, rfl⟩
  show (db.licenses.map _).find? _ = _
  rw [hmap, hfind]
  simp only [Option.map_some']
  rw [if_pos hl]

/-- Witness for C9: a manual payment on a Pending unpaid license marks it Paid. -/
theorem addPayment_forces_paid_witness :
    (addPayment 7 (some "u2") ⟨"10.50", some "2025-03-04", "UPI", "", "ok"⟩ true
        ⟨[⟨7, some "Pending", false, 120⟩], []⟩).db.licenses.find? (fun x => x.id == 7) =
      some ⟨7, some "Paid", true, 120⟩ := by
  have h := addPayment_forces_paid 7 "u2" "2025-03-04" ⟨"10.50", some "2025-03-04", "UPI", "", "ok"⟩
    ⟨[⟨7, some "Pending", false, 120⟩], []⟩ ⟨7, some "Pending", false, 120⟩
    (by decide) (by decide) (by decide)
  rw [h.1]

lemma sweep_foldl_eq_flatMap (nowMs : Int) (send : Nat → Except String String) :
    ∀ (ls : List SweepLicense) (acc : List NotificationDetail × List Nat),
      ls.foldl (fun acc l =>
          let r := processLicense nowMs send l
          (acc.1 ++ r.1, acc.2 ++ r.2)) acc =
        (acc.1 ++ ls.flatMap (fun l => (processLicense nowMs send l).1),
         acc.2 ++ ls.flatMap (fun l => (processLicense nowMs send l).2)) := by
  intro ls
  induction ls with
  | nil => intro acc; simp
  | cons hd tl ih =>
    intro acc
    simp only [List.foldl_cons, List.flatMap_cons, ih]
    simp [List.append_assoc]

lemma sweepDaysUntilExpiry_eq (nowMs : Int) (l : SweepLicense) :
    sweepDaysUntilExpiry nowMs l = l.expiry_day - nowMs / msPerDay := by
  unfold sweepDaysUntilExpiry ceilDiv msPerDay
  omega

lemma sweep_upper_day (nowMs : Int) :
    (nowMs + 30 * msPerDay) / msPerDay = nowMs / msPerDay + 30 := by
  unfold msPerDay
  omega

lemma sweepQueryPred_true_iff (nowMs : Int) (l : SweepLicense) :
    sweepQueryPred nowMs l = true ↔
      nowMs / msPerDay ≤ l.expiry_day ∧ l.expiry_day ≤ nowMs / msPerDay + 30 ∧
        l.notification_email.isSome = true := by
  unfold sweepQueryPred
  rw [sweep_upper_day]
  simp [and_assoc]

/-- C3: the sweep query keeps exactly the licenses whose expiry day lies in the
inclusive window from today to today plus thirty days and whose notification
email is not null, independently of payment_status (per-user notification
preferences are not an input of the handler at all); every selected license has
days-until-expiry equal to its calendar distance from today, lands in 0..30 and
is classified most-urgent-first into URGENT at most 3, HIGH at most 7, MEDIUM
at most 15 and LOW at most 30, the four cases being mutually exclusive. -/
theorem sweep_selection_and_ladder
    (rows : List SweepLicense) (l : SweepLicense) (nowMs : Int) (b : Bool) :
    (l ∈ rows.filter (sweepQueryPred nowMs) ↔
      l ∈ rows ∧ nowMs / msPerDay ≤ l.expiry_day ∧
        l.expiry_day ≤ nowMs / msPerDay + 30 ∧ l.notification_email.isSome = true) ∧
    (sweepQueryPred nowMs { l with payment_status := b } = sweepQueryPred nowMs l) ∧
    (sweepQueryPred nowMs l = true →
      sweepDaysUntilExpiry nowMs l = l.expiry_day - nowMs / msPerDay ∧
      (0 ≤ sweepDaysUntilExpiry nowMs l ∧ sweepDaysUntilExpiry nowMs l ≤ 30) ∧
      ((sweepDaysUntilExpiry nowMs l ≤ 3 ∧
          urgencyOf (sweepDaysUntilExpiry nowMs l) = some "URGENT") ∨
       (3 < sweepDaysUntilExpiry nowMs l ∧ sweepDaysUntilExpiry nowMs l ≤ 7 ∧
          urgencyOf (sweepDaysUntilExpiry nowMs l) = some "HIGH") ∨
       (7 < sweepDaysUntilExpiry nowMs l ∧ sweepDaysUntilExpiry nowMs l ≤ 15 ∧
          urgencyOf (sweepDaysUntilExpiry nowMs l) = some "MEDIUM") ∨
       (15 < sweepDaysUntilExpiry nowMs l ∧ sweepDaysUntilExpiry nowMs l ≤ 30 ∧
          urgencyOf (sweepDaysUntilExpiry nowMs l) = some "LOW"))) := by
  refine ⟨?_, ?_, ?_⟩
  · rw [List.mem_filter, sweepQueryPred_true_iff]
  · rfl
  · intro h
    rw [sweepQueryPred_true_iff] at h
    have hdays := sweepDaysUntilExpiry_eq nowMs l
    refine ⟨hdays, ⟨by omega, by omega⟩, ?_⟩
    unfold urgencyOf
    split_ifs with u1 u2 u3 u4
    · exact Or.inl ⟨u1, rfl⟩
    · exact Or.inr (Or.inl ⟨by omega, u2, rfl⟩)
    · exact Or.inr (Or.inr (Or.inl ⟨by omega, u3, rfl⟩))
    · exact Or.inr (Or.inr (Or.inr ⟨by omega, u4, rfl⟩))
    · omega

/-- Witness for C3 on a one-license table three days before expiry. -/
theorem sweep_selection_and_ladder_witness :
    (⟨1, "P", "V", 5, some "a@b.c", false⟩ : SweepLicense) ∈
      ([⟨1, "P", "V", 5, some "a@b.c", false⟩] : List SweepLicense).filter
        (sweepQueryPred (2 * 86400000)) ∧
    urgencyOf (sweepDaysUntilExpiry (2 * 86400000) ⟨1, "P", "V", 5, some "a@b.c", false⟩) =
      some "URGENT" := by
  have h := sweep_selection_and_ladder [⟨1, "P", "V", 5, some "a@b.c", false⟩]
    ⟨1, "P", "V", 5, some "a@b.c", false⟩ (2 * 86400000) true
  refine ⟨h.1.mpr ⟨by decide, by decide, by decide, by decide⟩, ?_⟩
  have h3 := h.2.2 (by decide)
  rcases h3.2.2 with ⟨-, hu⟩ | ⟨hgt, -, -⟩ | ⟨hgt, -, -⟩ | ⟨hgt, -, -⟩
  · exact hu
  all_goals
    rw [h3.1] at hgt
    exact absurd hgt (by decide)

lemma checkLicenseExpiry_ok_eq (rows : List SweepLicense) (nowMs : Int)
    (send : Nat → Except String String) :
    checkLicenseExpiry (Except.ok rows) nowMs send =
      (⟨200, SweepBody.success (rows.filter (sweepQueryPred nowMs)).length
          ((sweepDetails nowMs send rows).filter (fun n => n.status == "sent")).length
          ((sweepDetails nowMs send rows).filter (fun n => n.status == "failed")).length
          (sweepDetails nowMs send rows)⟩,
        (rows.filter (sweepQueryPred nowMs)).flatMap
          (fun l => (processLicense nowMs send l).2)) := by
  unfold sweepDetails
  simp only [checkLicenseExpiry]
  rw [sweep_foldl_eq_flatMap]
  simp

/-- C4: the sweep answers 500 with the query error and attempts no send exactly
when the license query fails; on query success it always answers 200 with a
success body whose details are assembled independently per selected license, a
send failure for one license contributing its own failed entry carrying the
error message without affecting any other entry. -/
theorem sweep_error_handling
    (rows : List SweepLicense) (e : String) (nowMs : Int)
    (send : Nat → Except String String) :
    (checkLicenseExpiry (Except.error e) nowMs send = (⟨500, SweepBody.failure e⟩, [])) ∧
    ((checkLicenseExpiry (Except.ok rows) nowMs send).1.status = 200) ∧
    ((checkLicenseExpiry (Except.ok rows) nowMs send).1.body =
      SweepBody.success (rows.filter (sweepQueryPred nowMs)).length
        ((sweepDetails nowMs send rows).filter (fun n => n.status == "sent")).length
        ((sweepDetails nowMs send rows).filter (fun n => n.status == "failed")).length
        (sweepDetails nowMs send rows)) ∧
    (∀ l msg u email, send l.id = Except.error msg →
        urgencyOf (sweepDaysUntilExpiry nowMs l) = some u →
        l.notification_email = some email → email ≠ "" →
        processLicense nowMs send l =
          ([⟨l.id, some email, sweepDaysUntilExpiry nowMs l, u, "failed", msg⟩], [l.id])) := by
  refine ⟨rfl, ?_, ?_, ?_⟩
  · rw [checkLicenseExpiry_ok_eq]
  · rw [checkLicenseExpiry_ok_eq]
  · intro l msg u email hsend hurg hemail hne
    simp only [processLicense, hurg, hemail, hsend]
    simp [hne]

/-- Witness for C4: a failing provider yields a failed detail entry and a
500 answer needs a failing query. -/
theorem sweep_error_handling_witness :
    (checkLicenseExpiry (Except.error "db down") 0 (fun _ => Except.error "smtp down") =
      (⟨500, SweepBody.failure "db down"⟩, [])) ∧
    (processLicense (2 * 86400000) (fun _ => Except.error "smtp down")
        ⟨1, "P", "V", 5, some "a@b.c", false⟩ =
      ([⟨1, some "a@b.c", 3, "URGENT", "failed", "smtp down"⟩], [1])) := by
  have h := sweep_error_handling [] "db down" 0 (fun _ => Except.error "smtp down")
  have h2 := sweep_error_handling [] "db down" (2 * 86400000) (fun _ => Except.error "smtp down")
  refine ⟨h.1, ?_⟩
  have h3 := h2.2.2.2 ⟨1, "P", "V", 5, some "a@b.c", false⟩ "smtp down" "URGENT" "a@b.c"
    rfl (by decide) rfl (by decide)
  rw [h3]
  rfl

lemma processLicense_fst_shape (nowMs : Int) (send : Nat → Except String String)
    (l : SweepLicense) :
    (processLicense nowMs send l).1 = [] ∨
      ∃ dtl, (processLicense nowMs send l).1 = [dtl] ∧
        (dtl.status = "sent" ∨ dtl.status = "failed") ∧ dtl.email.isSome = true := by
  cases hu : urgencyOf (sweepDaysUntilExpiry nowMs l) with
  | none => exact Or.inl (by simp [processLicense, hu])
  | some u =>
    cases he : l.notification_email with
    | none => exact Or.inl (by simp [processLicense, hu, he])
    | some email =>
      by_cases hne : email = ""
      · exact Or.inl (by simp [processLicense, hu, he, hne])
      · cases hs : send l.id with
        | ok emailId =>
          exact Or.inr ⟨⟨l.id, some email, sweepDaysUntilExpiry nowMs l, u, "sent", emailId⟩,
            by simp [processLicense, hu, he, hne, hs], Or.inl rfl, rfl⟩
        | error msg =>
          exact Or.inr ⟨⟨l.id, some email, sweepDaysUntilExpiry nowMs l, u, "failed", msg⟩,
            by simp [processLicense, hu, he, hne, hs], Or.inr rfl, rfl⟩

lemma flatMap_length_le_of_short {α β : Type} (f : α → List β)
    (hf : ∀ x, (f x).length ≤ 1) :
    ∀ ls : List α, (ls.flatMap f).length ≤ ls.length := by
  intro ls
  induction ls with
  | nil => simp
  | cons hd tl ih =>
    simp only [List.flatMap_cons, List.length_append, List.length_cons]
    have := hf hd
    omega

lemma sweepDetails_mem (nowMs : Int) (send : Nat → Except String String)
    (rows : List SweepLicense) :
    ∀ dtl ∈ sweepDetails nowMs send rows,
      (dtl.status = "sent" ∨ dtl.status = "failed") ∧ dtl.email.isSome = true := by
  intro dtl hmem
  unfold sweepDetails at hmem
  rw [List.mem_flatMap] at hmem
  obtain ⟨l, -, hdl⟩ := hmem
  rcases processLicense_fst_shape nowMs send l with h | ⟨d, hd, hprops⟩
  · rw [h] at hdl
    exact absurd hdl (List.not_mem_nil dtl)
  · rw [hd] at hdl
    rcases List.mem_singleton.mp hdl with rfl
    exact hprops

lemma filter_sent_failed_length :
    ∀ ds : List NotificationDetail,
      (∀ d ∈ ds, d.status = "sent" ∨ d.status = "failed") →
      (ds.filter (fun n => n.status == "sent")).length +
        (ds.filter (fun n => n.status == "failed")).length = ds.length := by
  intro ds
  induction ds with
  | nil => intro _; rfl
  | cons hd tl ih =>
    intro h
    have htl := ih (fun d hmem => h d (List.mem_cons_of_mem hd hmem))
    rcases h hd (List.mem_cons_self hd tl) with hs | hs <;>
      simp [List.filter_cons, hs, htl] <;> omega

lemma sweepDetails_length_le (nowMs : Int) (send : Nat → Except String String)
    (rows : List SweepLicense) :
    (sweepDetails nowMs send rows).length ≤ (rows.filter (sweepQueryPred nowMs)).length := by
  unfold sweepDetails
  apply flatMap_length_le_of_short
  intro l
  rcases processLicense_fst_shape nowMs send l with hnone | ⟨d, hd, -⟩
  · simp [hnone]
  · simp [hd]

/-- C10: every 200 answer of the sweep satisfies: sent plus failed counts equal
the number of detail entries, each detail entry has status sent or failed and a
non-null email, and checked_licenses is at least the number of detail entries. -/
theorem sweep_success_invariants
    (rows : List SweepLicense) (nowMs : Int) (send : Nat → Except String String) :
    ∃ checked sent failed details,
      (checkLicenseExpiry (Except.ok rows) nowMs send).1.body =
        SweepBody.success checked sent failed details ∧
      sent + failed = details.length ∧
      details.length ≤ checked ∧
      ∀ dtl ∈ details, (dtl.status = "sent" ∨ dtl.status = "failed") ∧
        dtl.email.isSome = true := by
  refine ⟨(rows.filter (sweepQueryPred nowMs)).length,
    ((sweepDetails nowMs send rows).filter (fun n => n.status == "sent")).length,
    ((sweepDetails nowMs send rows).filter (fun n => n.status == "failed")).length,
    sweepDetails nowMs send rows, ?_, ?_, ?_, ?_⟩
  · rw [checkLicenseExpiry_ok_eq]
  · exact filter_sent_failed_length _ (fun d hmem =>
      (sweepDetails_mem nowMs send rows d hmem).1)
  · exact sweepDetails_length_le nowMs send rows
  · exact sweepDetails_mem nowMs send rows

/-- Witness for C10 on a one-license table with a succeeding provider. -/
theorem sweep_success_invariants_witness :
    ∃ checked sent failed details,
      (checkLicenseExpiry (Except.ok [⟨2, "P", "V", 4, some "x@y.z", true⟩]) (2 * 86400000)
          (fun _ => Except.ok "prov-1")).1.body =
        SweepBody.success checked sent failed details ∧
      sent + failed = details.length ∧ details.length ≤ checked := by
  obtain ⟨c, s, f, ds, h1, h2, h3, -⟩ := sweep_success_invariants
    [⟨2, "P", "V", 4, some "x@y.z", true⟩] (2 * 86400000) (fun _ => Except.ok "prov-1")
  exact ⟨c, s, f, ds, h1, h2, h3⟩

lemma condErr_mem {b : Bool} {index : Nat} {msg e : String}
    (h : e ∈ condErr b index msg) : e = rowErr index msg := by
  unfold condErr at h
  cases b with
  | false => exact absurd h (List.not_mem_nil e)
  | true => exact List.mem_singleton.mp h

lemma validateRow_format (row : CSVLicenseRow) (index : Nat) (e : String)
    (h : e ∈ validateRow row index) :
    ∃ msg, e = "Row " ++ toString (index + 2) ++ ": " ++ msg := by
  unfold validateRow at h
  simp only [List.mem_append] at h
  rcases h with ((((((((((h | h) | h) | h) | h) | h) | h) | h) | h) | h) | h) <;>
    exact ⟨_, condErr_mem h⟩

lemma handleImportCSV_bad (text user : String) (categories : List CategoryRow)
    (locations : List LocationRow) (insertOk : Bool)
    (hbad : (parseCSV text).enum.flatMap (fun p => validateRow p.snd p.fst) ≠ []) :
    handleImportCSV text user categories locations insertOk =
      ⟨[], (parseCSV text).enum.flatMap (fun p => validateRow p.snd p.fst), false⟩ := by
  unfold handleImportCSV
  rw [if_pos hbad]

/-- C5 (amended): CSV import is all-or-nothing and exhaustively validated; when
some data row is invalid, nothing is inserted, the import does not succeed, the
returned error list is the concatenation of the validation errors of every data
row in order, every error of every row appears in it, and each error displays
the row number 0-based data row index plus 2 (equivalently the 1-based data row
index plus 1, matching the 1-based position in the file after the header). -/
theorem csvImport_all_or_nothing
    (text user : String) (categories : List CategoryRow) (locations : List LocationRow)
    (insertOk : Bool) (i : Nat) (row : CSVLicenseRow)
    (hrow : (parseCSV text)[i]? = some row)
    (hbad : validateRow row i ≠ []) :
    ((handleImportCSV text user categories locations insertOk).inserted = []) ∧
    ((handleImportCSV text user categories locations insertOk).success = false) ∧
    ((handleImportCSV text user categories locations insertOk).errors =
      (parseCSV text).enum.flatMap (fun p => validateRow p.snd p.fst)) ∧
    (∀ j rowj, (parseCSV text)[j]? = some rowj →
      ∀ e ∈ validateRow rowj j,
        e ∈ (handleImportCSV text user categories locations insertOk).errors) ∧
    (∀ j rowj e, (parseCSV text)[j]? = some rowj → e ∈ validateRow rowj j →
      ∃ msg, e = "Row " ++ toString (j + 2) ++ ": " ++ msg) := by
  have hmem : (i, row) ∈ (parseCSV text).enum :=
    List.mem_enum_iff_getElem?.mpr hrow
  obtain ⟨e0, he0⟩ := List.exists_mem_of_ne_nil _ hbad
  have hne : (parseCSV text).enum.flatMap (fun p => validateRow p.snd p.fst) ≠ [] := by
    intro hnil
    have hmm : e0 ∈ (parseCSV text).enum.flatMap (fun p => validateRow p.snd p.fst) :=
      List.mem_flatMap.mpr ⟨(i, row), hmem, he0⟩
    rw [hnil] at hmm
    exact List.not_mem_nil e0 hmm
  rw [handleImportCSV_bad text user categories locations insertOk hne]
  refine ⟨rfl, rfl, rfl, ?_, ?_⟩
  · intro j rowj hj e he
    exact List.mem_flatMap.mpr ⟨(j, rowj), List.mem_enum_iff_getElem?.mpr hj, he⟩
  · intro j rowj e hj he
    exact validateRow_format rowj j e he

/-- Counterexample to C5 as stated: on a batch whose first data row (1-based
index 1) is missing its amount, the import reports the display row number 2,
not 1-based index plus 2 which would be 3; no error mentions row 3. -/
theorem csvImport_row_number_counterexample :
    (handleImportCSV csvBadText "u9" [] [] true).errors =
      ["Row 2: Valid amount is required"] ∧
    ("Row " ++ toString (1 + 2) ++ ":") = "Row 3:" ∧
    (∀ e ∈ (handleImportCSV csvBadText "u9" [] [] true).errors,
      ("Row 3:".data.isPrefixOf e.data) = false) := by
  decide

/-- Witness for C5: on the same bad batch, nothing is inserted and the full
error list with the display row number is returned. -/
theorem csvImport_all_or_nothing_witness :
    ((handleImportCSV csvBadText "u9" [] [] true).inserted = []) ∧
    ((handleImportCSV csvBadText "u9" [] [] true).success = false) ∧
    "Row 2: Valid amount is required" ∈ (handleImportCSV csvBadText "u9" [] [] true).errors := by
  have h := csvImport_all_or_nothing csvBadText "u9" [] [] true 0
    ⟨"Widget", "Acme", "Software", "", "Monthly", "Active", "2024-01-01", "2024-12-31",
      "", "", "", "", "", ""⟩ (by decide) (by decide)
  refine ⟨h.1, h.2.1, ?_⟩
  apply h.2.2.2.1 0
    ⟨"Widget", "Acme", "Software", "", "Monthly", "Active", "2024-01-01", "2024-12-31",
      "", "", "", "", "", ""⟩ (by decide)
  decide

lemma quoteJoin_exportFields (l : ExportLicense) :
    quoteJoin (exportFields l) = specLicenseLine l := by
  unfold quoteJoin exportFields specLicenseLine
  cases hb : l.payment_status <;> simp [hb]

lemma quoteJoin_exportHeaders : quoteJoin exportHeaders = specHeaderLine := by
  decide

/-- C6: the export text is the quoted 12-column header line followed by one
line per license in order, each line the twelve double-quoted fields joined by
commas with the field text embedded verbatim, the Payment Status field reading
Paid exactly when the stored boolean is true and Unpaid otherwise; and the
download filename is licenses_ followed by the ISO date and .csv. -/
theorem exportToCSV_shape (licenses : List ExportLicense) (isoDate : String) :
    exportToCSV licenses =
      String.intercalate "\n" (specHeaderLine :: licenses.map specLicenseLine) ∧
    exportFilename isoDate = "licenses_" ++ isoDate ++ ".csv" := by
  constructor
  · unfold exportToCSV
    rw [List.map_cons, List.map_map, quoteJoin_exportHeaders]
    have hfun : quoteJoin ∘ exportFields = specLicenseLine :=
      funext quoteJoin_exportFields
    rw [hfun]
  · rfl
